import Mathlib

/-!
Shallow embedding of the questionnaire web service (chapters 2–7 of the
repository), covering the pagination pipeline, the identifier model, the
in-memory entity store, the SQL-backed store, and the error boundary mapper.

Conventions of the embedding:
* Rust `HashMap<K, V>` collections are modelled as association lists
  `List (K × V)` with unique keys; `HashMap::get` is `List.lookup`,
  `HashMap::insert` is `hmInsert` (replace-or-append), `HashMap::remove`
  is `hmRemove`.
* Rust `usize`/`i32` string parsing (`str::parse`) is modelled by
  `parseUsize` / `parseI32`: an optional sign followed by one or more
  ASCII digits, with the numeric range check of the target type.
* A Rust panic (out-of-bounds slice index, `Option::unwrap` on `None`)
  is modelled by returning `none` from an `Option`-valued function.
* `std::num::ParseIntError` payloads are modelled by the offending raw
  string; `std::io::Error` is modelled by its kind and message.
* Warp's `Reply` produced by `warp::reply::with_status` is modelled as a
  body string paired with the numeric status code.
-/

/-- Numeric value of an ASCII digit character. -/
def digitVal (c : Char) : Nat := c.toNat - 48

/-- Fold a digit list into the natural number it denotes (most significant first). -/
def digitsToNat (cs : List Char) : Nat :=
  cs.foldl (fun n c => n * 10 + digitVal c) 0

/-- Model of Rust `str::parse::<usize>()` (64-bit target): an optional leading
`+` followed by one or more ASCII digits, rejecting values `≥ 2 ^ 64`. -/
def parseUsize (s : String) : Option Nat :=
  let cs := s.toList
  let ds := match cs with
    | '+' :: rest => rest
    | _ => cs
  if ds ≠ [] ∧ ds.all Char.isDigit then
    let n := digitsToNat ds
    if n < 2 ^ 64 then some n else none
  else none

/-- Model of Rust `str::parse::<i32>()`: an optional leading `+` or `-`
followed by one or more ASCII digits, rejecting values outside
`[-2 ^ 31, 2 ^ 31 - 1]`. -/
def parseI32 (s : String) : Option Int :=
  let cs := s.toList
  match cs with
  | '+' :: rest =>
    if rest ≠ [] ∧ rest.all Char.isDigit then
      let n := digitsToNat rest
      if n ≤ 2 ^ 31 - 1 then some (n : Int) else none
    else none
  | '-' :: rest =>
    if rest ≠ [] ∧ rest.all Char.isDigit then
      let n := digitsToNat rest
      if n ≤ 2 ^ 31 then some (-(n : Int)) else none
    else none
  | _ =>
    if cs ≠ [] ∧ cs.all Char.isDigit then
      let n := digitsToNat cs
      if n ≤ 2 ^ 31 - 1 then some (n : Int) else none
    else none

/-- `HashMap::insert`: replace the binding at an existing key in place, or
append a fresh binding. -/
def hmInsert {K V : Type} [DecidableEq K] (m : List (K × V)) (k : K) (v : V) :
    List (K × V) :=
  match m with
  | [] => [(k, v)]
  | p :: t => if p.1 = k then (k, v) :: t else p :: hmInsert t k v

/-- `HashMap::get_mut` followed by `*q = v`: overwrite the value stored at
an existing key, leaving the rest of the map (and the key) untouched. -/
def hmSet {K V : Type} [DecidableEq K] (m : List (K × V)) (k : K) (v : V) :
    List (K × V) :=
  match m with
  | [] => []
  | p :: t => if p.1 = k then (p.1, v) :: t else p :: hmSet t k v

/-- `HashMap::remove` (restricted to its effect on the map): drop every
binding with the given key. -/
def hmRemove {K V : Type} [DecidableEq K] (m : List (K × V)) (k : K) :
    List (K × V) :=
  m.filter (fun p => p.1 ≠ k)

/-- `HashMap::contains_key`. -/
def hmContains {K V : Type} [DecidableEq K] (m : List (K × V)) (k : K) : Bool :=
  (m.lookup k).isSome

/-- The error type of the `handle-errors` crate
(ch06 `questionnaire-web-02-trace/handle-errors/src/errors.rs`, shared shape
with the ch05/ch06 crates): `ParseError` wraps a `ParseIntError`, modelled
here by the offending raw string. -/
inductive QError where
  | ParseError (err : String)
  | MissingParameters
  | QuestionNotFound
  deriving DecidableEq

/-- The `Display` implementation of `QError` (`impl std::fmt::Display for QError`). -/
def QError.display : QError → String
  | .ParseError err => "Cannot parse the parameter: " ++ err
  | .MissingParameters => "Missing parameter."
  | .QuestionNotFound => "Question not found."

/-- A warp reply produced by `warp::reply::with_status`: body text and
numeric HTTP status code. -/
structure Reply where
  body : String
  status : Nat
  deriving DecidableEq

namespace QW
/-! String-keyed variant of the service (chapters 5 and 6). -/

/-- `QuestionId(pub String)` (ch06 `questionnaire-web-01-log/src/types/question.rs`);
the single tuple field is named `raw`. -/
structure QuestionId where
  raw : String
  deriving DecidableEq

/-- `Question` record: id, title, content, optional tag list. -/
structure Question where
  id : QuestionId
  title : String
  content : String
  tags : Option (List String)
  deriving DecidableEq

/-- `AnswerId(pub String)` (ch06 `questionnaire-web-02-trace/src/types/answer.rs`). -/
structure AnswerId where
  raw : String
  deriving DecidableEq

/-- `Answer` record: id, content, id of the question it answers. -/
structure Answer where
  id : AnswerId
  content : String
  question_id : QuestionId
  deriving DecidableEq

/-- `impl FromStr for QuestionId` (ch06 `questionnaire-web-01-log/src/types/question.rs`):
any non-empty string is accepted verbatim; the empty string fails with an
`InvalidInput` io error "No ID provided". The error is modelled by its message. -/
def QuestionId.from_str (id : String) : Except String QuestionId :=
  match id.isEmpty with
  | false => .ok ⟨id⟩
  | true => .error "No ID provided"

/-- `Pagination` (ch05 `questionnaire-web/src/types/pagination.rs`):
1-based start and end indexes of a result window. -/
structure Pagination where
  start : Nat
  «end» : Nat
  deriving DecidableEq

/-- `extract_pagination` (ch05 `questionnaire-web/src/types/pagination.rs`,
identical in ch06): requires both `start` and `end` keys, parses both as
`usize`, and swaps the two values when `start > end`. -/
def extract_pagination (params : List (String × String)) :
    Except QError Pagination :=
  if (params.lookup "start").isSome && (params.lookup "end").isSome then
    match parseUsize ((params.lookup "start").getD "") with
    | none => .error (.ParseError ((params.lookup "start").getD ""))
    | some start_index =>
      match parseUsize ((params.lookup "end").getD "") with
      | none => .error (.ParseError ((params.lookup "end").getD ""))
      | some end_index =>
        let p := if start_index > end_index then (end_index, start_index)
                 else (start_index, end_index)
        .ok ⟨p.1, p.2⟩
  else
    .error .MissingParameters

/-- Rust slice indexing `data[i..j]`: defined when `i ≤ j ≤ data.length`,
a panic (`none`) otherwise. -/
def rustSlice {α : Type} (data : List α) (i j : Nat) : Option (List α) :=
  if i ≤ j ∧ j ≤ data.length then some ((data.drop i).take (j - i)) else none

/-- `get_questions` (ch05 `questionnaire-web/src/routes/question.rs`): with
non-empty query parameters, extract pagination, clamp `end` down to the
number of stored questions and `start` up to `1`, and slice
`data[(start - 1)..end]`. `data` is the snapshot of the stored questions in
the map's iteration order; the outer `none` models the slice-indexing panic. -/
def get_questions (params : List (String × String)) (data : List Question) :
    Option (Except QError (List Question)) :=
  if params ≠ [] then
    match extract_pagination params with
    | .error e => some (.error e)
    | .ok pg =>
      let e1 := if pg.«end» > data.length then data.length else pg.«end»
      let s1 := if pg.start < 1 then 1 else pg.start
      match rustSlice data (s1 - 1) e1 with
      | none => none
      | some result_set => some (.ok result_set)
  else
    some (.ok data)

/-- `add_question` (ch05 `questionnaire-web/src/routes/question.rs`): insert
the question under its own id (overwriting any existing binding) and reply
200 "Question added"; the operation is infallible. Returns the post-state
map together with the route result. -/
def add_question (store : List (QuestionId × Question)) (question : Question) :
    List (QuestionId × Question) × Except QError Reply :=
  (hmInsert store question.id question, .ok ⟨"Question added", 200⟩)

/-- `update_question` (ch05 `questionnaire-web/src/routes/question.rs`):
`get_mut(&QuestionId(id))`; on a hit the whole stored record is replaced by
`question` (`*q = question`), on a miss the route rejects with
`QuestionNotFound` and the map is untouched. -/
def update_question (id : String) (store : List (QuestionId × Question))
    (question : Question) :
    List (QuestionId × Question) × Except QError Reply :=
  if hmContains store ⟨id⟩ then
    (hmSet store ⟨id⟩ question, .ok ⟨"Question updated", 200⟩)
  else
    (store, .error .QuestionNotFound)

/-- `delete_question` (ch05 `questionnaire-web/src/routes/question.rs`):
`remove(&QuestionId(id))`; `Some` yields 200 "Question deleted.", `None`
rejects with `QuestionNotFound`. -/
def delete_question (id : String) (store : List (QuestionId × Question)) :
    List (QuestionId × Question) × Except QError Reply :=
  if hmContains store ⟨id⟩ then
    (hmRemove store ⟨id⟩, .ok ⟨"Question deleted.", 200⟩)
  else
    (store, .error .QuestionNotFound)

/-- The in-memory `Store` (ch06 `questionnaire-web/src/store.rs`): one
questions collection and one answers collection. -/
structure Store where
  questions : List (QuestionId × Question)
  answers : List (AnswerId × Answer)
  deriving DecidableEq

/-- `add_answer` (ch06 `questionnaire-web-01-log/src/routes/answer.rs`):
build an `Answer` with the hard-coded id `"1"`, content and `question_id`
taken from the form parameters (`params.get(..).unwrap()` — a missing key
panics, modelled by `none`), insert it into the answers collection, reply
200 "Answer added". The questions collection is never consulted. -/
def add_answer (store : Store) (params : List (String × String)) :
    Option (Store × Reply) :=
  match params.lookup "content", params.lookup "question_id" with
  | some content, some question_id =>
    let answer : Answer := ⟨⟨"1"⟩, content, ⟨question_id⟩⟩
    some ({ store with answers := hmInsert store.answers answer.id answer },
          ⟨"Answer added", 200⟩)
  | _, _ => none

end QW

example : QW.extract_pagination [("start", "1")] =
    .error .MissingParameters := by rfl
example : QW.extract_pagination [("start", "abc"), ("end", "3")] =
    .error (.ParseError "abc") := by rfl

namespace Ch07
/-! Integer-keyed, SQL-backed variant of the service (chapter 7). -/

/-- `QuestionId(pub i32)` (ch07 `questionnaire-web/src/types/question.rs`);
the single tuple field is named `raw`. `i32` is modelled as `Int` (the ids
are only compared, never wrapped). -/
structure QuestionId where
  raw : Int
  deriving DecidableEq

/-- `Question` record of the ch07 variant. -/
structure Question where
  id : QuestionId
  title : String
  content : String
  tags : Option (List String)
  deriving DecidableEq

/-- `impl FromStr for QuestionId` (ch07 `questionnaire-web/src/types/question.rs`):
the empty string fails with "No ID provided"; a non-empty string is parsed
as `i32` and a parse failure yields an `InvalidInput` io error. Errors are
modelled by their messages. -/
def QuestionId.from_str (id : String) : Except String QuestionId :=
  match id.isEmpty with
  | false =>
    match parseI32 id with
    | some value => .ok ⟨value⟩
    | none => .error ("ID is not an integer i32. " ++ id)
  | true => .error "No ID provided"

/-- The error type of the ch07 `handle-errors` crate. Its source file is not
part of the excerpt; the constructors are those named by the spec's error
taxonomy (§4.3) and by the ch07 sources that construct them
(`QError::DatabaseQueryError`, `QError::QuestionNotFound`, ...).
`DatabaseQueryError`'s `sqlx::Error` payload is modelled by a message. -/
inductive QError where
  | ParseError (err : String)
  | MissingParameters
  | QuestionNotFound
  | DatabaseQueryError (err : String)
  deriving DecidableEq

/-- `Pagination` (ch07 `questionnaire-web-01-sql-scripts/src/types/pagination.rs`):
an `offset` and an optional `limit`, both `i32`. -/
structure Pagination where
  offset : Int
  limit : Option Int
  deriving DecidableEq

/-- `extract_pagination` (ch07 `questionnaire-web-01-sql-scripts/src/types/pagination.rs`):
requires both `offset` and `limit` keys, parses both as `i32` (so negative
values are accepted), and performs no swap or clamp. -/
def extract_pagination (params : List (String × String)) :
    Except QError Pagination :=
  if (params.lookup "offset").isSome && (params.lookup "limit").isSome then
    match parseI32 ((params.lookup "offset").getD "") with
    | none => .error (.ParseError ((params.lookup "offset").getD ""))
    | some offset_value =>
      match parseI32 ((params.lookup "limit").getD "") with
      | none => .error (.ParseError ((params.lookup "limit").getD ""))
      | some limit_value => .ok ⟨offset_value, some limit_value⟩
  else
    .error .MissingParameters

/-- A row of the `questions` table (columns `id, title, content, tags`). -/
structure QRow where
  id : Int
  title : String
  content : String
  tags : Option (List String)
  deriving DecidableEq

/-- `Store::update_question` (ch07 `questionnaire-web-01-sql-scripts/src/store.rs`):
`UPDATE questions SET title, content, tags WHERE id = $4 RETURNING ...`.
The table is modelled as a row list; the statement updates every row whose
`id` matches and returns the updated rows through the row-mapping closure.
That closure reads the `content` column into both the `title` and `content`
fields (`title: row.get("content")`), faithfully reproduced here. The
`DatabaseQueryError` branch covers engine failures, which the pure table
model cannot produce. Returns the post-state table and the query result. -/
def Store.update_question (table : List QRow) (question : Question) (id : Int) :
    List QRow × Except QError (List Question) :=
  let updated := table.map (fun r =>
    if r.id = id then
      { r with title := question.title, content := question.content,
               tags := question.tags }
    else r)
  let returned := (updated.filter (fun r => r.id = id)).map (fun row =>
    { id := ⟨row.id⟩, title := row.content, content := row.content,
      tags := row.tags })
  (updated, .ok returned)

/-- `Store::delete_question` (ch07 `questionnaire-web-01-sql-scripts/src/store.rs`):
`DELETE FROM questions WHERE id = $1`, returning `rows_affected()` — the
number of rows whose `id` matched. -/
def Store.delete_question (table : List QRow) (id : Int) :
    List QRow × Except QError Nat :=
  ((table.filter (fun r => r.id ≠ id)),
   .ok (table.filter (fun r => r.id = id)).length)

/-- `delete_question` route (ch07 `questionnaire-web/src/routes/question.rs`):
an affected-row count in `1..=u64::MAX` replies 200 "Question {id} deleted.",
a count of `0` rejects with `QuestionNotFound`, and a store error is
propagated. Returns the post-state table and the route result. -/
def delete_question (id : Int) (table : List QRow) :
    List QRow × Except QError Reply :=
  let res := Store.delete_question table id
  match res.2 with
  | .ok n =>
    if 1 ≤ n then
      (res.1, .ok ⟨"Question " ++ toString id ++ " deleted.", 200⟩)
    else
      (res.1, .error .QuestionNotFound)
  | .error err => (res.1, .error err)

end Ch07

namespace HandleErrors
/-! The warp rejection boundary
(ch06 `questionnaire-web-02-trace/handle-errors/src/errors.rs`). -/

/-- A warp `Rejection` as far as `return_error` can distinguish it: it may
carry a `QError`, a `CorsForbidden` (with its display text), a
`BodyDeserializeError` (with its display text), or none of these
(`other`, e.g. no route matched). -/
inductive Rejection where
  | qerror (e : QError)
  | corsForbidden (msg : String)
  | bodyDeserializeError (msg : String)
  | other
  deriving DecidableEq

/-- `return_error` (ch06 `questionnaire-web-02-trace/handle-errors/src/errors.rs`):
try `find::<QError>` and match its three variants, then `find::<CorsForbidden>`,
then `find::<BodyDeserializeError>`, and finally fall back to
404 "Route not found". -/
def return_error (rej : Rejection) : Reply :=
  match rej with
  | .qerror e =>
    match e with
    | .QuestionNotFound => ⟨e.display, 404⟩
    | .MissingParameters => ⟨e.display, 400⟩
    | .ParseError _ => ⟨e.display, 400⟩
  | .corsForbidden msg => ⟨msg, 403⟩
  | .bodyDeserializeError msg => ⟨msg, 422⟩
  | .other => ⟨"Route not found", 404⟩

end HandleErrors

namespace QW

/-- Stated from the spec's words, for comparison with `get_questions`:
"if declared as (start, end) and start > end, swap them; end is clamped to
the number of available rows; start is clamped to be ≥ 1 (1-based) before
being converted to a 0-based slice offset", and the listing is the 1-based
inclusive window from the normalized start to the normalized end. -/
def specPaginationWindow (s e : Nat) (data : List Question) : List Question :=
  let s1 := if s > e then e else s
  let e1 := if s > e then s else e
  let e2 := min e1 data.length
  let s2 := max s1 1
  (data.drop (s2 - 1)).take (e2 - (s2 - 1))

/-- A mutating request against the questions collection: the three mutating
routes of ch05 `questionnaire-web/src/routes/question.rs`. -/
inductive StoreOp where
  | add (q : Question)
  | update (id : String) (q : Question)
  | delete (id : String)

/-- The post-state of the questions collection after one route call
(the route's reply or rejection is discarded). -/
def applyOp (m : List (QuestionId × Question)) : StoreOp → List (QuestionId × Question)
  | .add q => (add_question m q).1
  | .update id q => (update_question id m q).1
  | .delete id => (delete_question id m).1

/-- The post-state after a sequence of route calls. -/
def applyOps (ops : List StoreOp) (m : List (QuestionId × Question)) :
    List (QuestionId × Question) :=
  ops.foldl applyOp m

/-- Concrete sample data: `n` questions with ids `"1" .. "n"`. -/
def sampleQuestions (n : Nat) : List Question :=
  (List.range n).map (fun i =>
    ⟨⟨toString (i + 1)⟩, "title " ++ toString (i + 1),
     "content " ++ toString (i + 1), none⟩)

end QW

/-! Association-list lemmas about the `HashMap` model. -/

theorem lookup_eq_none_iff {K V : Type} [DecidableEq K] (m : List (K × V)) (k : K) :
    m.lookup k = none ↔ k ∉ m.map Prod.fst := by
  induction m with
  | nil => simp
  | cons a t ih =>
    obtain ⟨k', v'⟩ := a
    by_cases h : k = k'
    · subst h
      simp [List.lookup]
    · have hb : (k == k') = false := beq_false_of_ne h
      simp [List.lookup, hb, ih, h]

theorem lookup_isSome_iff {K V : Type} [DecidableEq K] (m : List (K × V)) (k : K) :
    (m.lookup k).isSome = true ↔ k ∈ m.map Prod.fst := by
  rw [Option.isSome_iff_ne_none, ne_eq, lookup_eq_none_iff, not_not]

theorem keys_hmSet {K V : Type} [DecidableEq K] (m : List (K × V)) (k : K) (v : V) :
    (hmSet m k v).map Prod.fst = m.map Prod.fst := by
  induction m with
  | nil => rfl
  | cons p t ih =>
    obtain ⟨k', v'⟩ := p
    by_cases h : k' = k <;> simp [hmSet, h, ih]

theorem lookup_hmSet_self {K V : Type} [DecidableEq K] (m : List (K × V)) (k : K) (v : V)
    (h : (m.lookup k).isSome = true) : (hmSet m k v).lookup k = some v := by
  induction m with
  | nil => simp [List.lookup] at h
  | cons p t ih =>
    obtain ⟨k', v'⟩ := p
    by_cases hk : k' = k
    · subst hk
      simp [hmSet, List.lookup]
    · have hb : (k == k') = false := beq_false_of_ne (fun he => hk he.symm)
      simp only [List.lookup, hb] at h
      simp only [hmSet, if_neg hk, List.lookup, hb]
      exact ih h

theorem mem_keys_hmInsert {K V : Type} [DecidableEq K] (m : List (K × V)) (k a : K) (v : V)
    (h : a ∈ (hmInsert m k v).map Prod.fst) : a ∈ m.map Prod.fst ∨ a = k := by
  induction m with
  | nil =>
    simp [hmInsert] at h
    exact Or.inr h
  | cons p t ih =>
    obtain ⟨k', v'⟩ := p
    by_cases hk : k' = k
    · simp only [hmInsert, if_pos hk, List.map_cons, List.mem_cons] at h
      rcases h with h | h
      · exact Or.inr h
      · exact Or.inl (by simp [h])
    · simp only [hmInsert, if_neg hk, List.map_cons, List.mem_cons] at h
      rcases h with h | h
      · exact Or.inl (by simp [h])
      · rcases ih h with h' | h'
        · exact Or.inl (List.mem_cons_of_mem _ h')
        · exact Or.inr h'

theorem lookup_hmInsert_self {K V : Type} [DecidableEq K] (m : List (K × V)) (k : K) (v : V) :
    (hmInsert m k v).lookup k = some v := by
  induction m with
  | nil => simp [hmInsert, List.lookup]
  | cons p t ih =>
    obtain ⟨k', v'⟩ := p
    by_cases hk : k' = k
    · simp [hmInsert, hk, List.lookup]
    · have hb : (k == k') = false := beq_false_of_ne (fun he => hk he.symm)
      simp only [hmInsert, if_neg hk, List.lookup, hb]
      exact ih

theorem keys_hmInsert_nodup {K V : Type} [DecidableEq K] (m : List (K × V)) (k : K) (v : V)
    (h : (m.map Prod.fst).Nodup) : ((hmInsert m k v).map Prod.fst).Nodup := by
  induction m with
  | nil => simp [hmInsert]
  | cons p t ih =>
    obtain ⟨k', v'⟩ := p
    simp only [List.map_cons, List.nodup_cons] at h
    obtain ⟨hk', ht⟩ := h
    by_cases hk : k' = k
    · subst hk
      simp only [hmInsert, eq_self_iff_true, if_true, List.map_cons, List.nodup_cons]
      exact ⟨hk', ht⟩
    · simp only [hmInsert, if_neg hk, List.map_cons, List.nodup_cons]
      refine ⟨?_, ih ht⟩
      intro hmem
      rcases mem_keys_hmInsert t k k' v hmem with h' | h'
      · exact hk' h'
      · exact hk h'

theorem keys_hmRemove_nodup {K V : Type} [DecidableEq K] (m : List (K × V)) (k : K)
    (h : (m.map Prod.fst).Nodup) : ((hmRemove m k).map Prod.fst).Nodup := by
  exact ((m.filter_sublist).map Prod.fst).nodup h

theorem lookup_hmRemove_self {K V : Type} [DecidableEq K] (m : List (K × V)) (k : K) :
    (hmRemove m k).lookup k = none := by
  rw [lookup_eq_none_iff]
  intro hmem
  obtain ⟨p, hp, hfst⟩ := List.mem_map.mp hmem
  have := List.of_mem_filter hp
  simp [hfst] at this

/-! Shared helper lemmas for the claim theorems. -/

theorem map_eq_self_of_fix {α : Type} (l : List α) (f : α → α) (h : ∀ a ∈ l, f a = a) :
    l.map f = l := by
  induction l with
  | nil => rfl
  | cons a t ih =>
    rw [List.map_cons, h a (List.mem_cons_self a t),
      ih (fun x hx => h x (List.mem_cons_of_mem a hx))]

theorem applyOp_nodup (m : List (QW.QuestionId × QW.Question)) (op : QW.StoreOp)
    (h : (m.map Prod.fst).Nodup) : ((QW.applyOp m op).map Prod.fst).Nodup := by
  cases op with
  | add q => exact keys_hmInsert_nodup m q.id q h
  | update id q =>
    by_cases hc : hmContains m ⟨id⟩ = true
    · simp only [QW.applyOp, QW.update_question, hc, if_true]
      rw [keys_hmSet]
      exact h
    · simp only [QW.applyOp, QW.update_question, hc, if_false, Bool.false_eq_true]
      exact h
  | delete id =>
    by_cases hc : hmContains m ⟨id⟩ = true
    · simp only [QW.applyOp, QW.delete_question, hc, if_true]
      exact keys_hmRemove_nodup m _ h
    · simp only [QW.applyOp, QW.delete_question, hc, if_false, Bool.false_eq_true]
      exact h

theorem applyOps_nodup (ops : List QW.StoreOp) (m : List (QW.QuestionId × QW.Question))
    (h : (m.map Prod.fst).Nodup) : ((QW.applyOps ops m).map Prod.fst).Nodup := by
  induction ops generalizing m with
  | nil => exact h
  | cons op t ih => exact ih _ (applyOp_nodup m op h)

/-! Claim theorems. -/

/-- Claim C7: the boundary mapper `return_error` is a total function over
faults and maps each kind deterministically: `QuestionNotFound` to 404,
`MissingParameters` to 400, `ParseError` to 400, a CORS rejection to 403, a
malformed-body rejection to 422, and every unrecognized fault to the fixed
message "Route not found" with status 404. (Totality holds because
`HandleErrors.return_error` is a total Lean function over `Rejection`, and
the six cases below cover every constructor.) -/
theorem C7_return_error_mapping :
    HandleErrors.return_error (.qerror .QuestionNotFound) = ⟨"Question not found.", 404⟩
    ∧ HandleErrors.return_error (.qerror .MissingParameters) = ⟨"Missing parameter.", 400⟩
    ∧ (∀ msg : String, HandleErrors.return_error (.qerror (.ParseError msg)) =
        ⟨"Cannot parse the parameter: " ++ msg, 400⟩)
    ∧ (∀ msg : String, HandleErrors.return_error (.corsForbidden msg) = ⟨msg, 403⟩)
    ∧ (∀ msg : String, HandleErrors.return_error (.bodyDeserializeError msg) = ⟨msg, 422⟩)
    ∧ HandleErrors.return_error .other = ⟨"Route not found", 404⟩ :=
  ⟨rfl, rfl, fun _ => rfl, fun _ => rfl, fun _ => rfl, rfl⟩

/-- Claim C4: for every non-empty string the string-keyed `QuestionId::from_str`
succeeds and round-trips (the raw value carried by the identifier equals the
input); for the empty string it fails with the invalid-id error; and the
integer-keyed variant fails exactly when the string is empty or not parseable
as a signed 32-bit integer. -/
theorem C4_parse_id_roundtrip :
    (∀ s : String, s ≠ "" → QW.QuestionId.from_str s = .ok ⟨s⟩)
    ∧ QW.QuestionId.from_str "" = .error "No ID provided"
    ∧ (∀ s : String,
        (∃ e, Ch07.QuestionId.from_str s = .error e) ↔ s = "" ∨ parseI32 s = none) := by
  refine ⟨?_, rfl, ?_⟩
  · intro s hs
    have h1 : s.isEmpty = false := by
      cases h : s.isEmpty
      · rfl
      · exact absurd ((String.isEmpty_iff s).mp h) hs
    simp [QW.QuestionId.from_str, h1]
  · intro s
    constructor
    · rintro ⟨e, he⟩
      cases h : s.isEmpty
      · cases hp : parseI32 s with
        | some v => simp [Ch07.QuestionId.from_str, h, hp] at he
        | none => exact Or.inr rfl
      · exact Or.inl ((String.isEmpty_iff s).mp h)
    · intro h
      cases hse : s.isEmpty
      · rcases h with h | h
        · subst h
          rw [show ("" : String).isEmpty = true from rfl] at hse
          cases hse
        · exact ⟨"ID is not an integer i32. " ++ s,
            by simp [Ch07.QuestionId.from_str, hse, h]⟩
      · exact ⟨"No ID provided", by simp [Ch07.QuestionId.from_str, hse]⟩

/-- Witness for C4 at the concrete non-empty id "abc". -/
theorem C4_parse_id_roundtrip_witness :
    ("abc" : String) ≠ "" ∧ QW.QuestionId.from_str "abc" = .ok ⟨"abc"⟩ :=
  ⟨by decide, C4_parse_id_roundtrip.1 "abc" (by decide)⟩

/-- Claim C3 counterexample: in the ch07 variant (keys `offset`/`limit`,
parsed as `i32`) a supplied bound that is a negative number — hence not a
valid non-negative integer — is accepted, not rejected with `ParseError`. -/
theorem C3_counterexample :
    Ch07.extract_pagination [("offset", "-3"), ("limit", "2")] =
      .ok ⟨-3, some 2⟩ := by rfl

/-- Claim C3 (amended): in both variants a map missing one of the two
required bound keys fails with `MissingParameters`; a supplied bound fails
with `ParseError` exactly under the bound type's parse rule — in the
ch05/ch06 (`start`/`end`, `usize`) variant any string that is not a
non-negative integer numeral (so in particular `"abc"` or a negative
number), in the ch07 (`offset`/`limit`, `i32`) variant only a string that is
not a signed 32-bit integer (negative numbers are accepted there). -/
theorem C3_pagination_errors :
    (∀ params : List (String × String),
        ((params.lookup "start").isSome = false ∨ (params.lookup "end").isSome = false) →
        QW.extract_pagination params = .error .MissingParameters)
    ∧ (∀ (params : List (String × String)) (ss es : String),
        params.lookup "start" = some ss → params.lookup "end" = some es →
        parseUsize ss = none ∨ parseUsize es = none →
        ∃ msg, QW.extract_pagination params = .error (.ParseError msg))
    ∧ (∀ params : List (String × String),
        ((params.lookup "offset").isSome = false ∨ (params.lookup "limit").isSome = false) →
        Ch07.extract_pagination params = .error .MissingParameters)
    ∧ (∀ (params : List (String × String)) (os ls : String),
        params.lookup "offset" = some os → params.lookup "limit" = some ls →
        parseI32 os = none ∨ parseI32 ls = none →
        ∃ msg, Ch07.extract_pagination params = .error (.ParseError msg)) := by
  refine ⟨?_, ?_, ?_, ?_⟩
  · intro params h
    rcases h with h | h <;> simp [QW.extract_pagination, h]
  · intro params ss es hs he hp
    rcases hp with hp | hp
    · exact ⟨ss, by simp [QW.extract_pagination, hs, he, hp]⟩
    · cases hss : parseUsize ss with
      | none => exact ⟨ss, by simp [QW.extract_pagination, hs, he, hss]⟩
      | some v => exact ⟨es, by simp [QW.extract_pagination, hs, he, hss, hp]⟩
  · intro params h
    rcases h with h | h <;> simp [Ch07.extract_pagination, h]
  · intro params os ls hs he hp
    rcases hp with hp | hp
    · exact ⟨os, by simp [Ch07.extract_pagination, hs, he, hp]⟩
    · cases hos : parseI32 os with
      | none => exact ⟨os, by simp [Ch07.extract_pagination, hs, he, hos]⟩
      | some v => exact ⟨ls, by simp [Ch07.extract_pagination, hs, he, hos, hp]⟩

/-- Witness for C3 at the spec's concrete scenarios: `{start: "abc", end: "3"}`
fails with `ParseError` and `{start: "1"}` alone fails with `MissingParameters`
(and likewise a lone `offset` in the ch07 variant). -/
theorem C3_pagination_errors_witness :
    (∃ msg, QW.extract_pagination [("start", "abc"), ("end", "3")] =
        .error (.ParseError msg))
    ∧ QW.extract_pagination [("start", "1")] = .error .MissingParameters
    ∧ Ch07.extract_pagination [("offset", "1")] = .error .MissingParameters :=
  ⟨C3_pagination_errors.2.1 _ "abc" "3" rfl rfl (Or.inl rfl),
   C3_pagination_errors.1 _ (Or.inr rfl),
   C3_pagination_errors.2.2.1 _ (Or.inr rfl)⟩

/-- Claim C5 counterexample: the SQL-backed `Store::update_question` applied
to an id absent from the table (here the empty table) succeeds with an empty
result list and does not fail with `QuestionNotFound`. -/
theorem C5_counterexample :
    Ch07.Store.update_question [] ⟨⟨1⟩, "title", "content", none⟩ 1 =
      ([], .ok []) := rfl

/-- Claim C5 (amended): in the in-memory variant, `update_question` after
`add_question` under the same id succeeds and replaces the visible record
entirely with the new question, and `update_question` on an absent id fails
with `QuestionNotFound` leaving the store unchanged; in the SQL-backed
variant, an update on an absent id leaves the table unchanged but succeeds
with an empty result list instead of failing with `QuestionNotFound`. -/
theorem C5_update_question :
    (∀ (m : List (QW.QuestionId × QW.Question)) (q1 q2 : QW.Question),
        (QW.update_question q1.id.raw (QW.add_question m q1).1 q2).2 =
          .ok ⟨"Question updated", 200⟩
        ∧ ((QW.update_question q1.id.raw (QW.add_question m q1).1 q2).1).lookup q1.id =
            some q2)
    ∧ (∀ (m : List (QW.QuestionId × QW.Question)) (id : String) (q2 : QW.Question),
        hmContains m ⟨id⟩ = false →
        QW.update_question id m q2 = (m, .error .QuestionNotFound))
    ∧ (∀ (table : List Ch07.QRow) (q : Ch07.Question) (id : Int),
        (∀ r ∈ table, r.id ≠ id) →
        Ch07.Store.update_question table q id = (table, .ok [])) := by
  refine ⟨?_, ?_, ?_⟩
  · intro m q1 q2
    have hid : QW.QuestionId.mk q1.id.raw = q1.id := rfl
    have hsome : ((hmInsert m q1.id q1).lookup q1.id).isSome = true := by
      rw [lookup_hmInsert_self]
      rfl
    have hc : hmContains (hmInsert m q1.id q1) q1.id = true := hsome
    constructor
    · simp [QW.update_question, QW.add_question, hid, hc]
    · simp [QW.update_question, QW.add_question, hid, hc,
        lookup_hmSet_self _ _ _ hsome]
  · intro m id q2 h
    simp [QW.update_question, h]
  · intro table q id h
    have hmap : table.map (fun r => if r.id = id then
        { r with title := q.title, content := q.content, tags := q.tags }
        else r) = table :=
      map_eq_self_of_fix _ _ (fun r hr => if_neg (h r hr))
    have hfil : table.filter (fun r => r.id = id) = [] := by
      rw [List.filter_eq_nil_iff]
      intro r hr
      simp [h r hr]
    simp [Ch07.Store.update_question, hmap, hfil]

/-- Witness for C5: updating id 1 against a one-row table holding only id 5
leaves the table unchanged and returns the empty result list. -/
theorem C5_update_question_witness :
    (∀ r ∈ [(⟨5, "a", "b", none⟩ : Ch07.QRow)], r.id ≠ 1)
    ∧ Ch07.Store.update_question [⟨5, "a", "b", none⟩] ⟨⟨1⟩, "t", "c", none⟩ 1 =
        ([⟨5, "a", "b", none⟩], .ok []) :=
  ⟨by decide, C5_update_question.2.2 _ _ _ (by decide)⟩

/-- Claim C6: `delete_question` on an absent id fails with `QuestionNotFound`
(store unchanged); on a present id it succeeds and the id is afterwards
absent from the map and (for a key-coherent store) from the value listing;
and the SQL-backed route signals `QuestionNotFound` exactly when the delete
statement's affected-row count is zero. -/
theorem C6_delete_question :
    (∀ (m : List (QW.QuestionId × QW.Question)) (id : String),
        hmContains m ⟨id⟩ = false →
        QW.delete_question id m = (m, .error .QuestionNotFound))
    ∧ (∀ (m : List (QW.QuestionId × QW.Question)) (id : String),
        hmContains m ⟨id⟩ = true →
        (QW.delete_question id m).2 = .ok ⟨"Question deleted.", 200⟩
        ∧ ((QW.delete_question id m).1).lookup (⟨id⟩ : QW.QuestionId) = none)
    ∧ (∀ (m : List (QW.QuestionId × QW.Question)) (id : String),
        (∀ p ∈ m, (p.2).id = p.1) →
        ∀ q ∈ ((QW.delete_question id m).1).map Prod.snd, q.id ≠ ⟨id⟩)
    ∧ (∀ (table : List Ch07.QRow) (id : Int),
        ((Ch07.delete_question id table).2 = .error .QuestionNotFound ↔
          (table.filter (fun r => r.id = id)).length = 0)) := by
  refine ⟨?_, ?_, ?_, ?_⟩
  · intro m id h
    simp [QW.delete_question, h]
  · intro m id h
    refine ⟨by simp [QW.delete_question, h], ?_⟩
    simp only [QW.delete_question, h, if_true]
    exact lookup_hmRemove_self m _
  · intro m id hco q hq
    by_cases hc : hmContains m ⟨id⟩ = true
    · simp only [QW.delete_question, hc, if_true] at hq
      obtain ⟨p, hp, hq⟩ := List.mem_map.mp hq
      have hkey := List.of_mem_filter hp
      have hmem := List.mem_of_mem_filter hp
      intro hqe
      rw [← hq] at hqe
      rw [hco p hmem] at hqe
      simp [hqe] at hkey
    · simp only [QW.delete_question, hc, if_false, Bool.false_eq_true] at hq
      obtain ⟨p, hp, hq⟩ := List.mem_map.mp hq
      intro hqe
      have h1 : p.1 = (⟨id⟩ : QW.QuestionId) := by
        rw [← hco p hp, hq, hqe]
      have h2 : (⟨id⟩ : QW.QuestionId) ∈ m.map Prod.fst :=
        List.mem_map.mpr ⟨p, hp, h1⟩
      exact hc ((lookup_isSome_iff m _).mpr h2)
  · intro table id
    cases hn : (table.filter (fun r => r.id = id)).length with
    | zero => simp [Ch07.delete_question, Ch07.Store.delete_question, hn]
    | succ k =>
      simp [Ch07.delete_question, Ch07.Store.delete_question, hn]

/-- Witness for C6: deleting the present id "1" from a one-question store
succeeds and removes the binding. -/
theorem C6_delete_question_witness :
    hmContains [((⟨"1"⟩ : QW.QuestionId), (⟨⟨"1"⟩, "t", "c", none⟩ : QW.Question))]
        (⟨"1"⟩ : QW.QuestionId) = true
    ∧ ((QW.delete_question "1" [(⟨"1"⟩, ⟨⟨"1"⟩, "t", "c", none⟩)]).2 =
          .ok ⟨"Question deleted.", 200⟩
       ∧ ((QW.delete_question "1"
            [(⟨"1"⟩, ⟨⟨"1"⟩, "t", "c", none⟩)]).1).lookup (⟨"1"⟩ : QW.QuestionId) =
          none) :=
  ⟨rfl, C6_delete_question.2.1 _ "1" rfl⟩

/-- Claim C8: `add_question` always succeeds (no uniqueness rejection),
inserting the question under its own id and overwriting any existing record
with that id; and after any sequence of store operations starting from a
store with pairwise-distinct identifiers, the stored identifiers remain
pairwise distinct. -/
theorem C8_add_question_unique :
    (∀ (m : List (QW.QuestionId × QW.Question)) (q : QW.Question),
        (QW.add_question m q).2 = .ok ⟨"Question added", 200⟩)
    ∧ (∀ (m : List (QW.QuestionId × QW.Question)) (q : QW.Question),
        ((QW.add_question m q).1).lookup q.id = some q)
    ∧ (∀ (ops : List QW.StoreOp) (m : List (QW.QuestionId × QW.Question)),
        (m.map Prod.fst).Nodup → ((QW.applyOps ops m).map Prod.fst).Nodup) :=
  ⟨fun _ _ => rfl, fun m q => lookup_hmInsert_self m q.id q, applyOps_nodup⟩

/-- Witness for C8: a concrete operation sequence (overwrite-add, update,
delete, fresh add) over a two-question store keeps the identifiers
pairwise distinct. -/
theorem C8_add_question_unique_witness :
    (([((⟨"1"⟩ : QW.QuestionId), (⟨⟨"1"⟩, "t1", "c1", none⟩ : QW.Question)),
       (⟨"2"⟩, ⟨⟨"2"⟩, "t2", "c2", none⟩)].map Prod.fst).Nodup)
    ∧ ((QW.applyOps
          [QW.StoreOp.add ⟨⟨"2"⟩, "t2b", "c2b", none⟩,
           QW.StoreOp.update "1" ⟨⟨"1"⟩, "t1b", "c1b", none⟩,
           QW.StoreOp.delete "2",
           QW.StoreOp.add ⟨⟨"3"⟩, "t3", "c3", none⟩]
          [(⟨"1"⟩, ⟨⟨"1"⟩, "t1", "c1", none⟩),
           (⟨"2"⟩, ⟨⟨"2"⟩, "t2", "c2", none⟩)]).map Prod.fst).Nodup :=
  ⟨by decide,
   C8_add_question_unique.2.2 _ _ (by decide)⟩

/-- Claim C9: `add_answer` builds an answer whose id is the constant "1"
independent of the caller, takes content and question id from the supplied
parameters, inserts it into the answers collection, and performs no check
that the question id references an existing question (the result is the
same for every questions collection). -/
theorem C9_add_answer (store : QW.Store) (params : List (String × String))
    (c qid : String)
    (hc : params.lookup "content" = some c)
    (hq : params.lookup "question_id" = some qid) :
    QW.add_answer store params =
      some ({ store with answers := hmInsert store.answers ⟨"1"⟩ ⟨⟨"1"⟩, c, ⟨qid⟩⟩ },
            ⟨"Answer added", 200⟩)
    ∧ (hmInsert store.answers ⟨"1"⟩ ⟨⟨"1"⟩, c, ⟨qid⟩⟩).lookup (⟨"1"⟩ : QW.AnswerId) =
        some ⟨⟨"1"⟩, c, ⟨qid⟩⟩
    ∧ (∀ qs2 : List (QW.QuestionId × QW.Question),
        QW.add_answer ⟨qs2, store.answers⟩ params =
          some (⟨qs2, hmInsert store.answers ⟨"1"⟩ ⟨⟨"1"⟩, c, ⟨qid⟩⟩⟩,
                ⟨"Answer added", 200⟩)) := by
  refine ⟨?_, lookup_hmInsert_self _ _ _, ?_⟩
  · simp [QW.add_answer, hc, hq]
  · intro qs2
    simp [QW.add_answer, hc, hq]

/-- Witness for C9: adding an answer that references question id "42" against
a store whose questions collection is empty succeeds, with answer id "1". -/
theorem C9_add_answer_witness :
    ([(("content" : String), ("hello" : String)),
      ("question_id", "42")].lookup "content" = some "hello")
    ∧ QW.add_answer ⟨[], []⟩ [("content", "hello"), ("question_id", "42")] =
        some (⟨[], hmInsert [] ⟨"1"⟩ ⟨⟨"1"⟩, "hello", ⟨"42"⟩⟩⟩,
              ⟨"Answer added", 200⟩) :=
  ⟨rfl, (C9_add_answer ⟨[], []⟩ [("content", "hello"), ("question_id", "42")]
      "hello" "42" rfl rfl).1⟩

/-- Claim C1 (amended): for every query-parameter map carrying `start` and
`end` bounds that parse as non-negative integers, the pipeline normalizes
the bounds — swap when start > end, clamp end down to the number of stored
questions, clamp start up to 1 — and, provided the normalized start exceeds
the normalized end by at most one (the slice expression is then in range;
see C2 for the out-of-range panic), `get_questions` returns exactly the
1-based inclusive window from the normalized start to the normalized end of
the stored sequence. -/
theorem C1_pagination_window (params : List (String × String))
    (data : List QW.Question) (ss es : String) (s e : Nat)
    (hs : params.lookup "start" = some ss)
    (he : params.lookup "end" = some es)
    (hps : parseUsize ss = some s)
    (hpe : parseUsize es = some e)
    (hnp : max (min s e) 1 ≤ min (max s e) data.length + 1) :
    QW.get_questions params data =
      some (.ok (QW.specPaginationWindow s e data)) := by
  have hne : params ≠ [] := by
    intro hF
    subst hF
    simp at hs
  have hextract : QW.extract_pagination params = .ok ⟨min s e, max s e⟩ := by
    simp only [QW.extract_pagination, hs, he, Option.isSome_some, Bool.and_self,
      if_true, Option.getD_some, hps, hpe]
    split_ifs with h <;> simp [QW.Pagination.mk.injEq] <;> omega
  have hE : (if max s e > data.length then data.length else max s e) =
      min (max s e) data.length := by
    split_ifs with h <;> omega
  have hS : (if min s e < 1 then 1 else min s e) = max (min s e) 1 := by
    split_ifs with h <;> omega
  have h1 : (if s > e then e else s) = min s e := by
    split_ifs with h <;> omega
  have h2 : (if s > e then s else e) = max s e := by
    split_ifs with h <;> omega
  have hcond : max (min s e) 1 - 1 ≤ min (max s e) data.length ∧
      min (max s e) data.length ≤ data.length := ⟨by omega, by omega⟩
  simp only [QW.get_questions, if_pos hne, hextract, hE, hS,
    QW.rustSlice, if_pos hcond, QW.specPaginationWindow, h1, h2]

/-- Claim C1 counterexample: with bounds (start=5, end=10) over a 3-element
listing the route does not return the normalized window — the slice
expression `data[4..3]` is out of range and the call panics (modelled as
`none`), so no listing is returned at all. -/
theorem C1_pagination_window_counterexample :
    QW.get_questions [("start", "5"), ("end", "10")] (QW.sampleQuestions 3) =
      none := by rfl

/-- Witness for C1 at the spec's concrete scenario: bounds (start=5, end=2)
over a 10-element listing give the window (2, 5). -/
theorem C1_pagination_window_witness :
    ([(("start" : String), ("5" : String)), ("end", "2")].lookup "start" = some "5")
    ∧ parseUsize "5" = some 5
    ∧ max (min 5 2) 1 ≤ min (max 5 2) (QW.sampleQuestions 10).length + 1
    ∧ QW.get_questions [("start", "5"), ("end", "2")] (QW.sampleQuestions 10) =
        some (.ok (QW.specPaginationWindow 5 2 (QW.sampleQuestions 10))) :=
  ⟨rfl, rfl, by decide,
   C1_pagination_window [("start", "5"), ("end", "2")] (QW.sampleQuestions 10)
     "5" "2" 5 2 rfl rfl rfl rfl (by decide)⟩

/-- Claim C2: evaluation of `get_questions` at the failing input — bounds
(start=7, end=9) over a 4-element listing. After the code's clamping the
slice expression is `data[6..4]`, whose start exceeds its end, so the call
panics (modelled as `none`) instead of returning a listing: the claimed
in-bounds invariant `start - 1 ≤ end` does not hold. -/
theorem C2_slice_panics :
    QW.get_questions [("start", "7"), ("end", "9")] (QW.sampleQuestions 4) =
      none := by rfl
